import Mathlib

/-!
Shallow embedding of the CNCI agent connection lifecycle and command
serialization engine (networking/cnci_agent/client.go).

The embedding covers:
* the `ssntpConn` connection-status flag and its accessors
  (`isConnected` / `setStatus`);
* the SSNTP notification callbacks of `agentClient`
  (`ConnectNotify`, `DisconnectNotify`, `StatusNotify`, `ErrorNotify`,
  `CommandNotify`, `EventNotify`), split into the work they perform
  inline in the callback and the decode tasks they spawn;
* `processCommand`, the per-command side-effect dispatcher;
* `connectToServer`, the connection loop, modelled as a step function
  over the events its select statement can observe (a dial result, a
  readable done channel, a command arrival) plus the environment event
  of the done channel being closed;
* the `main` shutdown-coordinator loop, modelled as a step function over
  its select events (OS signal, status rendezvous, shutdown timeout,
  watchdog token).

External collaborators (the yaml decoder, the network backend, the SSNTP
transport) appear as parameters or as opaque task descriptions, exactly
as the code consumes them.
-/

namespace CnciAgent

/-- Opaque payload bytes carried by an SSNTP frame. -/
abbrev RawPayload := List Nat

/-- Payload of a TenantAdded event (payloads.EventTenantAdded.TenantAdded). -/
structure TenantAddedPayload where
  tenant : String
  subnet : String
deriving DecidableEq

/-- Payload of a TenantRemoved event (payloads.EventTenantRemoved.TenantRemoved). -/
structure TenantRemovedPayload where
  tenant : String
  subnet : String
deriving DecidableEq

/-- Payload of an AssignPublicIP command (payloads.CommandAssignPublicIP.AssignIP). -/
structure AssignIPPayload where
  tenant : String
  ip : String
deriving DecidableEq

/-- Payload of a ReleasePublicIP command (payloads.CommandReleasePublicIP.ReleaseIP). -/
structure ReleaseIPPayload where
  tenant : String
  ip : String
deriving DecidableEq

/-- The contents of a `cmdWrapper` sent on `client.cmdCh`: one of the four
decoded wire payloads, or the `statusConnected` sentinel struct. -/
inductive Cmd
  | eventTenantAdded (p : TenantAddedPayload)
  | eventTenantRemoved (p : TenantRemovedPayload)
  | commandAssignPublicIP (p : AssignIPPayload)
  | commandReleasePublicIP (p : ReleaseIPPayload)
  | statusConnected
deriving DecidableEq

/-- SSNTP command kinds that `CommandNotify` switches on; `other` stands for
every kind that falls into the default case. -/
inductive SsntpCommandKind
  | assignPublicIP
  | releasePublicIP
  | other
deriving DecidableEq

/-- SSNTP event kinds that `EventNotify` switches on; `other` stands for
every kind that falls into the default case. -/
inductive SsntpEventKind
  | tenantAdded
  | tenantRemoved
  | other
deriving DecidableEq

/-- A notification delivered to the agent by the SSNTP session. -/
inductive Notification
  | connect
  | disconnect
  | status (code : Nat)
  | error (code : Nat)
  | command (kind : SsntpCommandKind) (payload : RawPayload)
  | event (kind : SsntpEventKind) (payload : RawPayload)
deriving DecidableEq

/-- The yaml.Unmarshal collaborator: for each target payload type, a partial
decoding function on raw payload bytes (none models an unmarshal error). -/
structure YamlOracle where
  assignIP : RawPayload → Option AssignIPPayload
  releaseIP : RawPayload → Option ReleaseIPPayload
  tenantAdded : RawPayload → Option TenantAddedPayload
  tenantRemoved : RawPayload → Option TenantRemovedPayload

/-- The `ssntpConn` struct: the RWMutex-guarded `connected` flag.  The lock
itself serializes access; the embedding models the serialized view. -/
structure SsntpConn where
  connected : Bool
deriving DecidableEq

/-- ssntpConn.isConnected: read the flag under the read lock. -/
def isConnected (s : SsntpConn) : Bool :=
  s.connected

/-- ssntpConn.setStatus: write the flag under the write lock. -/
def setStatus (s : SsntpConn) (status : Bool) : SsntpConn :=
  { s with connected := status }

/-- A decode goroutine spawned by `CommandNotify` or `EventNotify`: it holds
the payload bytes and the target type it will unmarshal into. -/
inductive DecodeTask
  | decodeAssignIP (payload : RawPayload)
  | decodeReleaseIP (payload : RawPayload)
  | decodeTenantAdded (payload : RawPayload)
  | decodeTenantRemoved (payload : RawPayload)
deriving DecidableEq

/-- Run one decode goroutine: yaml.Unmarshal the payload; on success send the
decoded command on `cmdCh`, on error log a warning and return (no command). -/
def runDecodeTask (y : YamlOracle) : DecodeTask → List Cmd
  | .decodeAssignIP p =>
      match y.assignIP p with
      | some v => [Cmd.commandAssignPublicIP v]
      | none => []
  | .decodeReleaseIP p =>
      match y.releaseIP p with
      | some v => [Cmd.commandReleasePublicIP v]
      | none => []
  | .decodeTenantAdded p =>
      match y.tenantAdded p with
      | some v => [Cmd.eventTenantAdded v]
      | none => []
  | .decodeTenantRemoved p =>
      match y.tenantRemoved p with
      | some v => [Cmd.eventTenantRemoved v]
      | none => []

/-- The structural shape of one notification callback: which value it writes
to the `connected` flag (if any), which commands it sends on `cmdCh` inline
in the callback body, and which decode goroutines it spawns. -/
structure CallbackShape where
  flagWrite : Option Bool
  inlineEnqueues : List Cmd
  spawnedDecoders : List DecodeTask
deriving DecidableEq

/-- The shape of each `agentClient` notification callback, read off the code:
* `ConnectNotify`: setStatus(true), then an inline send of the
  `statusConnected` sentinel on `cmdCh`;
* `DisconnectNotify`: setStatus(false), nothing else;
* `StatusNotify` and `ErrorNotify`: log only;
* `CommandNotify`: for AssignPublicIP / ReleasePublicIP, spawn one decode
  goroutine for the frame payload; default case logs only;
* `EventNotify`: for TenantAdded / TenantRemoved, spawn one decode
  goroutine for the frame payload; default case logs only. -/
def callbackShape : Notification → CallbackShape
  | .connect =>
      { flagWrite := some true
        inlineEnqueues := [Cmd.statusConnected]
        spawnedDecoders := [] }
  | .disconnect =>
      { flagWrite := some false
        inlineEnqueues := []
        spawnedDecoders := [] }
  | .status _ =>
      { flagWrite := none, inlineEnqueues := [], spawnedDecoders := [] }
  | .error _ =>
      { flagWrite := none, inlineEnqueues := [], spawnedDecoders := [] }
  | .command kind payload =>
      match kind with
      | .assignPublicIP =>
          { flagWrite := none
            inlineEnqueues := []
            spawnedDecoders := [DecodeTask.decodeAssignIP payload] }
      | .releasePublicIP =>
          { flagWrite := none
            inlineEnqueues := []
            spawnedDecoders := [DecodeTask.decodeReleaseIP payload] }
      | .other =>
          { flagWrite := none, inlineEnqueues := [], spawnedDecoders := [] }
  | .event kind payload =>
      match kind with
      | .tenantAdded =>
          { flagWrite := none
            inlineEnqueues := []
            spawnedDecoders := [DecodeTask.decodeTenantAdded payload] }
      | .tenantRemoved =>
          { flagWrite := none
            inlineEnqueues := []
            spawnedDecoders := [DecodeTask.decodeTenantRemoved payload] }
      | .other =>
          { flagWrite := none, inlineEnqueues := [], spawnedDecoders := [] }

/-- All commands a notification eventually produces onto `cmdCh`: its inline
sends followed by the output of the decode goroutines it spawned. -/
def notifCmds (y : YamlOracle) (n : Notification) : List Cmd :=
  (callbackShape n).inlineEnqueues ++
    ((callbackShape n).spawnedDecoders.flatMap (runDecodeTask y))

/-- The effect of delivering one notification to the agent: the new flag
state and the commands produced onto `cmdCh`. -/
def handleNotification (y : YamlOracle) (s : SsntpConn) (n : Notification) :
    SsntpConn × List Cmd :=
  match (callbackShape n).flagWrite with
  | some b => (setStatus s b, notifCmds y n)
  | none => (s, notifCmds y n)

/-- Deliver a sequence of notifications, threading the flag state and
collecting the produced commands in order. -/
def runNotifications (y : YamlOracle) (s : SsntpConn) :
    List Notification → SsntpConn × List Cmd
  | [] => (s, [])
  | n :: rest =>
      let r := handleNotification y s n
      let r2 := runNotifications y r.1 rest
      (r2.1, r.2 ++ r2.2)

/-- Specification-side function for the Connection Status flag: the value the
flag should have after a notification sequence, starting from `init` — true
exactly when the most recent connect/disconnect notification was a connect. -/
def lastConnState (init : Bool) : List Notification → Bool
  | [] => init
  | n :: rest =>
      match n with
      | .connect => lastConnState true rest
      | .disconnect => lastConnState false rest
      | _ => lastConnState init rest

/-- Whether a notification is a connect notification. -/
def isConnectNotif : Notification → Bool
  | .connect => true
  | _ => false

/-- Number of `statusConnected` (RegistrationReady) sentinels in a command list. -/
def countReg (cs : List Cmd) : Nat :=
  cs.countP (fun c => c = Cmd.statusConnected)

/-- Number of connect notifications in a notification sequence. -/
def countConnects (ns : List Notification) : Nat :=
  ns.countP isConnectNotif

/-- A fire-and-forget goroutine spawned by `processCommand`, carrying the
network-backend operation it will invoke (an external collaborator). -/
inductive SideEffectTask
  | addRemoteSubnet (p : TenantAddedPayload)
  | delRemoteSubnet (p : TenantRemovedPayload)
  | assignPubIP (p : AssignIPPayload)
  | releasePubIP (p : ReleaseIPPayload)
deriving DecidableEq

/-- An SSNTP event sent by the agent to the scheduler. -/
inductive NetworkEventKind
  | concentratorInstanceAdded
deriving DecidableEq

/-- What one `processCommand` call does: the goroutines it spawns and the
events it sends to the scheduler synchronously, in the calling goroutine.
`processCommand` always returns to its caller; errors are only logged. -/
structure ProcessResult where
  spawned : List SideEffectTask
  syncSent : List NetworkEventKind
deriving DecidableEq

/-- processCommand: switch on the dynamic type of the wrapped command.  Each
of the four network commands spawns one goroutine invoking the backend; the
`statusConnected` sentinel sends the registration event synchronously in the
loop goroutine.  `sendErr` is whether that `sendNetworkEvent` call fails; the
failure is logged and otherwise ignored. -/
def processCommand (sendErr : Bool) : Cmd → ProcessResult
  | .eventTenantAdded p =>
      { spawned := [SideEffectTask.addRemoteSubnet p], syncSent := [] }
  | .eventTenantRemoved p =>
      { spawned := [SideEffectTask.delRemoteSubnet p], syncSent := [] }
  | .commandAssignPublicIP p =>
      { spawned := [SideEffectTask.assignPubIP p], syncSent := [] }
  | .commandReleasePublicIP p =>
      { spawned := [SideEffectTask.releasePubIP p], syncSent := [] }
  | .statusConnected =>
      { spawned := [], syncSent := [NetworkEventKind.concentratorInstanceAdded] }

/-- The state of the `connectToServer` select loop, together with the
observable history of its actions:
* `dialing`: the local `dialing` variable;
* `doneClosed`: whether `main` has closed `doneCh` (environment state; it
  decides whether the non-blocking inner select on `doneCh` sees it ready);
* `closeCount`: how many times `client.Close()` has been invoked;
* `dispatched`: the commands passed to `processCommand`, in dequeue order;
* `spawnedTasks` and `syncSends`: accumulated effects of those calls. -/
structure LoopState where
  dialing : Bool
  doneClosed : Bool
  closeCount : Nat
  dispatched : List Cmd
  spawnedTasks : List SideEffectTask
  syncSends : List NetworkEventKind
deriving DecidableEq

/-- The loop state at entry to the DONE loop: `dialing := true`, nothing yet
observed or dispatched. -/
def initialLoopState : LoopState :=
  { dialing := true
    doneClosed := false
    closeCount := 0
    dispatched := []
    spawnedTasks := []
    syncSends := [] }

/-- One occurrence the connection loop can react to:
* `dialResult err`: the dial goroutine sends on `dialCh` (`err` is whether
  `client.Dial` failed);
* `done`: the select takes the `<-doneCh` case (possible once `doneCh` is
  closed);
* `cmd c sendErr`: a command is received from `client.cmdCh` (`sendErr` is
  whether a synchronous registration send performed for it would fail);
* `closeDone`: the environment (`main`) closes `doneCh`. -/
inductive LoopEvent
  | dialResult (err : Bool)
  | done
  | cmd (c : Cmd) (sendErr : Bool)
  | closeDone
deriving DecidableEq

/-- Result of one iteration of the DONE loop: keep looping, or break DONE. -/
inductive StepResult
  | next (s : LoopState)
  | exit (s : LoopState)
deriving DecidableEq

/-- One iteration of the `connectToServer` select loop:
* on `dialCh`: clear `dialing`; if the dial failed, break DONE;
* on `doneCh`: call `client.Close()`; if no longer dialing, break DONE;
* on `cmdCh`: first re-check `doneCh` with a non-blocking select — if it is
  ready (closed), call `client.Close()` and break DONE without processing
  the command; otherwise call `processCommand` and keep looping;
* `closeDone` is the environment closing `doneCh`. -/
def loopStep (s : LoopState) : LoopEvent → StepResult
  | .dialResult err =>
      let s1 := { s with dialing := false }
      if err then .exit s1 else .next s1
  | .done =>
      let s1 := { s with closeCount := s.closeCount + 1 }
      if s1.dialing then .next s1 else .exit s1
  | .cmd c sendErr =>
      if s.doneClosed then
        .exit { s with closeCount := s.closeCount + 1 }
      else
        let r := processCommand sendErr c
        .next { s with
                dispatched := s.dispatched ++ [c]
                spawnedTasks := s.spawnedTasks ++ r.spawned
                syncSends := s.syncSends ++ r.syncSent }
  | .closeDone => .next { s with doneClosed := true }

/-- Run the DONE loop over a sequence of events; returns the final state and
whether the loop broke out of DONE (`true`) or is still waiting (`false`).
Events after a break are ignored: the loop is no longer receiving. -/
def runLoop (s : LoopState) : List LoopEvent → LoopState × Bool
  | [] => (s, false)
  | e :: rest =>
      match loopStep s e with
      | .exit s1 => (s1, true)
      | .next s1 => runLoop s1 rest

/-- A trace is well formed when a `done` event (the select reading `doneCh`)
occurs only while `doneCh` is closed, tracked from the given flag. -/
def validTrace (closed : Bool) : List LoopEvent → Bool
  | [] => true
  | e :: rest =>
      match e with
      | .done => closed && validTrace closed rest
      | .closeDone => validTrace true rest
      | _ => validTrace closed rest

/-- The observable outcome of one `connectToServer` call on an event trace:
the final loop state, whether the loop exited, and how many values the
function sent on `statusCh`.  The deferred send on `statusCh` runs exactly
when the function returns, which happens exactly when the loop breaks DONE. -/
structure ConnectOutcome where
  finalState : LoopState
  exited : Bool
  statusSent : Nat
deriving DecidableEq

/-- connectToServer: run the DONE loop from the initial state; the deferred
`statusCh <- struct\x7b\x7d\x7b\x7d` fires once upon return. -/
def connectToServer (events : List LoopEvent) : ConnectOutcome :=
  let r := runLoop initialLoopState events
  { finalState := r.1
    exited := r.2
    statusSent := if r.2 then 1 else 0 }

/-- State of the `main` shutdown-coordinator loop:
* `doneClosed`: whether `doneCh` has been closed;
* `timerArmed`: whether the one-second timeout goroutine has been launched;
* `wdogArms`: how many times the watchdog re-arm goroutine was launched. -/
structure MainState where
  doneClosed : Bool
  timerArmed : Bool
  wdogArms : Nat
deriving DecidableEq

/-- The coordinator state when the DONE loop of `main` is entered. -/
def initialMainState : MainState :=
  { doneClosed := false, timerArmed := false, wdogArms := 0 }

/-- One occurrence the `main` select loop can react to: an OS termination
signal on `signalCh`, the status rendezvous from the connection loop, the
shutdown timeout firing, or the watchdog token. -/
inductive MainEvent
  | signal
  | status
  | timeout
  | wdog
deriving DecidableEq

/-- Result of one iteration of the coordinator loop: keep looping, break DONE
(process terminates), or a runtime fault (panic) in the coordinator. -/
inductive MainStepResult
  | next (s : MainState)
  | exit (s : MainState)
  | fault (s : MainState)
deriving DecidableEq

/-- One iteration of the `main` select loop:
* `signal`: `close(doneCh)` and arm the one-second timeout goroutine — but
  closing an already-closed channel is a runtime panic, so a second signal
  after the first faults the coordinator;
* `status`: the connection loop quit cleanly; break DONE;
* `timeout`: the grace period elapsed; break DONE;
* `wdog`: re-arm the watchdog goroutine and keep looping. -/
def mainStep (s : MainState) : MainEvent → MainStepResult
  | .signal =>
      if s.doneClosed then
        .fault s
      else
        .next { s with doneClosed := true, timerArmed := true }
  | .status => .exit s
  | .timeout => .exit s
  | .wdog => .next { s with wdogArms := s.wdogArms + 1 }

/-- The terminal condition of a coordinator run. -/
inductive MainOutcome
  | running
  | exited
  | faulted
deriving DecidableEq

/-- Run the coordinator loop over a sequence of events; events after a break
or a fault are ignored. -/
def runMain (s : MainState) : List MainEvent → MainState × MainOutcome
  | [] => (s, MainOutcome.running)
  | e :: rest =>
      match mainStep s e with
      | .exit s1 => (s1, MainOutcome.exited)
      | .fault s1 => (s1, MainOutcome.faulted)
      | .next s1 => runMain s1 rest

/-- A coordinator trace is well formed when `timeout` occurs only after the
timeout goroutine was armed and `status` occurs at most once (the connection
loop sends exactly one status value). -/
def validMainTrace (armed : Bool) (statusSeen : Bool) : List MainEvent → Bool
  | [] => true
  | e :: rest =>
      match e with
      | .timeout => armed && validMainTrace armed statusSeen rest
      | .status => !statusSeen && validMainTrace armed true rest
      | .signal => validMainTrace true statusSeen rest
      | .wdog => validMainTrace armed statusSeen rest

/-- Whether the decode goroutine for a command/event notification fails to
unmarshal its payload (non-command/event notifications never decode). -/
def decodeFails (y : YamlOracle) : Notification → Bool
  | .command .assignPublicIP p => (y.assignIP p).isNone
  | .command .releasePublicIP p => (y.releaseIP p).isNone
  | .event .tenantAdded p => (y.tenantAdded p).isNone
  | .event .tenantRemoved p => (y.tenantRemoved p).isNone
  | _ => false

/-- Whether, at some step of a run of the DONE loop from the given state, a
command is dequeued while the done channel is already closed — that is,
whether the loop ever observes the shutdown request on the command path (the
non-blocking inner select finding `doneCh` ready). -/
def cmdShutdownObserved : LoopState → List LoopEvent → Bool
  | _, [] => false
  | s, e :: rest =>
      (match e with
       | LoopEvent.cmd _ _ => s.doneClosed
       | _ => false) ||
      (match loopStep s e with
       | StepResult.exit _ => false
       | StepResult.next s1 => cmdShutdownObserved s1 rest)

/-- Whether a loop-event trace contains the dial result. -/
def hasDialResult : List LoopEvent → Bool
  | [] => false
  | e :: rest =>
      match e with
      | .dialResult _ => true
      | _ => hasDialResult rest

/-- A concrete yaml decoder used to instantiate proved statements: payload
[1] decodes as an AssignPublicIP command, [2] as ReleasePublicIP, [3] as
TenantAdded, [4] as TenantRemoved; every other payload fails to decode. -/
def testOracle : YamlOracle where
  assignIP := fun p =>
    if p = [1] then some { tenant := "t1", ip := "203.0.113.5" } else none
  releaseIP := fun p =>
    if p = [2] then some { tenant := "t1", ip := "203.0.113.5" } else none
  tenantAdded := fun p =>
    if p = [3] then some { tenant := "t1", subnet := "172.16.0.0/24" } else none
  tenantRemoved := fun p =>
    if p = [4] then some { tenant := "t1", subnet := "172.16.0.0/24" } else none

/-! Helper lemmas about notification handling. -/

theorem handleNotification_fst (y : YamlOracle) (s : SsntpConn) (n : Notification) :
    (handleNotification y s n).1 =
      match n with
      | Notification.connect => setStatus s true
      | Notification.disconnect => setStatus s false
      | _ => s := by
  cases n with
  | connect => rfl
  | disconnect => rfl
  | status code => rfl
  | error code => rfl
  | command kind payload => cases kind <;> rfl
  | event kind payload => cases kind <;> rfl

theorem handleNotification_snd (y : YamlOracle) (s : SsntpConn) (n : Notification) :
    (handleNotification y s n).2 = notifCmds y n := by
  cases n with
  | connect => rfl
  | disconnect => rfl
  | status code => rfl
  | error code => rfl
  | command kind payload => cases kind <;> rfl
  | event kind payload => cases kind <;> rfl

theorem runNotifications_cons (y : YamlOracle) (s : SsntpConn) (n : Notification)
    (rest : List Notification) :
    runNotifications y s (n :: rest) =
      ((runNotifications y (handleNotification y s n).1 rest).1,
        (handleNotification y s n).2 ++
          (runNotifications y (handleNotification y s n).1 rest).2) := rfl

theorem runNotifications_snd (y : YamlOracle) (s : SsntpConn) (ns : List Notification) :
    (runNotifications y s ns).2 = ns.flatMap (notifCmds y) := by
  induction ns generalizing s with
  | nil => rfl
  | cons n rest ih =>
      rw [runNotifications_cons, List.flatMap_cons]
      show (handleNotification y s n).2 ++
          (runNotifications y (handleNotification y s n).1 rest).2 =
        notifCmds y n ++ rest.flatMap (notifCmds y)
      rw [handleNotification_snd, ih]

theorem runNotifications_flag (y : YamlOracle) (s : SsntpConn) (ns : List Notification) :
    isConnected (runNotifications y s ns).1 = lastConnState (isConnected s) ns := by
  induction ns generalizing s with
  | nil => rfl
  | cons n rest ih =>
      have h1 : isConnected (runNotifications y s (n :: rest)).1 =
          lastConnState (isConnected (handleNotification y s n).1) rest :=
        ih (handleNotification y s n).1
      rw [h1, handleNotification_fst]
      cases n <;> simp [lastConnState, isConnected, setStatus]

theorem countReg_append (a b : List Cmd) :
    countReg (a ++ b) = countReg a + countReg b := by
  simp [countReg, List.countP_append]

theorem countReg_runDecodeTask (y : YamlOracle) (t : DecodeTask) :
    countReg (runDecodeTask y t) = 0 := by
  cases t with
  | decodeAssignIP p => cases h : y.assignIP p <;> simp [runDecodeTask, h, countReg]
  | decodeReleaseIP p => cases h : y.releaseIP p <;> simp [runDecodeTask, h, countReg]
  | decodeTenantAdded p => cases h : y.tenantAdded p <;> simp [runDecodeTask, h, countReg]
  | decodeTenantRemoved p => cases h : y.tenantRemoved p <;> simp [runDecodeTask, h, countReg]

theorem countReg_notifCmds (y : YamlOracle) (n : Notification) :
    countReg (notifCmds y n) = if isConnectNotif n then 1 else 0 := by
  cases n with
  | connect => rfl
  | disconnect => rfl
  | status code => rfl
  | error code => rfl
  | command kind payload =>
      cases kind with
      | assignPublicIP =>
          have h : notifCmds y
              (Notification.command SsntpCommandKind.assignPublicIP payload) =
            runDecodeTask y (DecodeTask.decodeAssignIP payload) ++ [] := rfl
          rw [h, countReg_append, countReg_runDecodeTask]
          rfl
      | releasePublicIP =>
          have h : notifCmds y
              (Notification.command SsntpCommandKind.releasePublicIP payload) =
            runDecodeTask y (DecodeTask.decodeReleaseIP payload) ++ [] := rfl
          rw [h, countReg_append, countReg_runDecodeTask]
          rfl
      | other => rfl
  | event kind payload =>
      cases kind with
      | tenantAdded =>
          have h : notifCmds y
              (Notification.event SsntpEventKind.tenantAdded payload) =
            runDecodeTask y (DecodeTask.decodeTenantAdded payload) ++ [] := rfl
          rw [h, countReg_append, countReg_runDecodeTask]
          rfl
      | tenantRemoved =>
          have h : notifCmds y
              (Notification.event SsntpEventKind.tenantRemoved payload) =
            runDecodeTask y (DecodeTask.decodeTenantRemoved payload) ++ [] := rfl
          rw [h, countReg_append, countReg_runDecodeTask]
          rfl
      | other => rfl

theorem countReg_runNotifications (y : YamlOracle) (s : SsntpConn)
    (ns : List Notification) :
    countReg (runNotifications y s ns).2 = countConnects ns := by
  rw [runNotifications_snd]
  induction ns with
  | nil => rfl
  | cons n rest ih =>
      rw [List.flatMap_cons, countReg_append, countReg_notifCmds, ih]
      unfold countConnects
      rw [List.countP_cons]
      cases h : isConnectNotif n <;> simp [h, countConnects] <;> omega

theorem decodeFails_notifCmds (y : YamlOracle) (n : Notification)
    (h : decodeFails y n = true) : notifCmds y n = [] := by
  cases n with
  | connect => simp [decodeFails] at h
  | disconnect => simp [decodeFails] at h
  | status code => simp [decodeFails] at h
  | error code => simp [decodeFails] at h
  | command kind payload =>
      cases kind with
      | assignPublicIP =>
          rw [decodeFails, Option.isNone_iff_eq_none] at h
          simp [notifCmds, callbackShape, runDecodeTask, h]
      | releasePublicIP =>
          rw [decodeFails, Option.isNone_iff_eq_none] at h
          simp [notifCmds, callbackShape, runDecodeTask, h]
      | other => simp [decodeFails] at h
  | event kind payload =>
      cases kind with
      | tenantAdded =>
          rw [decodeFails, Option.isNone_iff_eq_none] at h
          simp [notifCmds, callbackShape, runDecodeTask, h]
      | tenantRemoved =>
          rw [decodeFails, Option.isNone_iff_eq_none] at h
          simp [notifCmds, callbackShape, runDecodeTask, h]
      | other => simp [decodeFails] at h

/-- Claim C1: for every sequence of notifications delivered to the agent, the
Connection Status flag returned by `isConnected` is true exactly when the most
recent connect/disconnect notification was a connect; each notification writes
the flag to true on connect (via the connect handler), to false on disconnect
(via the disconnect handler), and leaves it unchanged in every other case, so
no operation other than these two handlers ever writes the flag. -/
theorem isConnected_tracks_last_connect :
    ∀ (y : YamlOracle) (s : SsntpConn) (ns : List Notification),
      isConnected (runNotifications y s ns).1 = lastConnState (isConnected s) ns ∧
      ∀ n : Notification,
        ((handleNotification y s n).1).connected =
          (match n with
           | Notification.connect => true
           | Notification.disconnect => false
           | _ => s.connected) := by
  intro y s ns
  refine ⟨runNotifications_flag y s ns, ?_⟩
  intro n
  rw [handleNotification_fst]
  cases n <;> rfl

/-- Claim C2: every connect notification produces exactly one RegistrationReady
(`statusConnected`) sentinel onto the Command Queue regardless of how many
commands were already queued, and no other notification ever produces one: a
single notification produces one sentinel when it is a connect and zero
otherwise. -/
theorem registrationReady_once_per_connect :
    ∀ (y : YamlOracle) (s : SsntpConn) (ns : List Notification) (queue : List Cmd),
      countReg (queue ++ (runNotifications y s ns).2) =
        countReg queue + countConnects ns ∧
      ∀ n : Notification,
        countReg (notifCmds y n) = if isConnectNotif n then 1 else 0 := by
  intro y s ns queue
  refine ⟨?_, fun n => countReg_notifCmds y n⟩
  rw [countReg_append, countReg_runNotifications]

/-- Claim C7: a command/event notification whose payload fails to decode
produces no command onto the queue, and the failure is isolated to that single
notification: the commands produced by a sequence containing the failing
notification are exactly those produced by the notifications before it
followed by those produced by the notifications after it. -/
theorem decode_failure_isolated :
    ∀ (y : YamlOracle) (s : SsntpConn) (pre post : List Notification)
      (n : Notification),
      decodeFails y n = true →
      notifCmds y n = [] ∧
      (runNotifications y s (pre ++ n :: post)).2 =
        (runNotifications y s pre).2 ++ (runNotifications y s post).2 := by
  intro y s pre post n h
  have hn := decodeFails_notifCmds y n h
  refine ⟨hn, ?_⟩
  rw [runNotifications_snd, runNotifications_snd, runNotifications_snd,
    List.flatMap_append, List.flatMap_cons, hn]
  simp

/-- Witness for C7: with the concrete decoder `testOracle`, payload [9] fails
to decode as AssignPublicIP; a valid TenantAdded notification before it and a
valid ReleasePublicIP notification after it still produce their commands. -/
theorem decode_failure_isolated_witness :
    decodeFails testOracle
        (Notification.command SsntpCommandKind.assignPublicIP [9]) = true ∧
    notifCmds testOracle
        (Notification.command SsntpCommandKind.assignPublicIP [9]) = [] ∧
    (runNotifications testOracle { connected := true }
        ([Notification.event SsntpEventKind.tenantAdded [3]] ++
          Notification.command SsntpCommandKind.assignPublicIP [9] ::
            [Notification.command SsntpCommandKind.releasePublicIP [2]])).2 =
      (runNotifications testOracle { connected := true }
          [Notification.event SsntpEventKind.tenantAdded [3]]).2 ++
        (runNotifications testOracle { connected := true }
          [Notification.command SsntpCommandKind.releasePublicIP [2]]).2 := by
  have h : decodeFails testOracle
      (Notification.command SsntpCommandKind.assignPublicIP [9]) = true := by decide
  have h2 := decode_failure_isolated testOracle { connected := true }
    [Notification.event SsntpEventKind.tenantAdded [3]]
    [Notification.command SsntpCommandKind.releasePublicIP [2]]
    (Notification.command SsntpCommandKind.assignPublicIP [9]) h
  exact ⟨h, h2.1, h2.2⟩

/-! Helper lemmas about the connection loop and the shutdown coordinator. -/

theorem runLoop_cons_next {s s1 : LoopState} {e : LoopEvent}
    (h : loopStep s e = StepResult.next s1) (rest : List LoopEvent) :
    runLoop s (e :: rest) = runLoop s1 rest := by
  simp [runLoop, h]

theorem runLoop_cons_exit {s s1 : LoopState} {e : LoopEvent}
    (h : loopStep s e = StepResult.exit s1) (rest : List LoopEvent) :
    runLoop s (e :: rest) = (s1, true) := by
  simp [runLoop, h]

theorem runLoop_exit_needs_dialResult (events : List LoopEvent) :
    ∀ s : LoopState, s.dialing = true → cmdShutdownObserved s events = false →
      (runLoop s events).2 = true → hasDialResult events = true := by
  induction events with
  | nil =>
      intro s _ _ hr
      exact absurd hr (by simp [runLoop])
  | cons e rest ih =>
      intro s hd hc hr
      cases e with
      | dialResult err => rfl
      | done =>
          have hstep : loopStep s LoopEvent.done =
              StepResult.next { s with closeCount := s.closeCount + 1 } := by
            simp [loopStep, hd]
          rw [runLoop_cons_next hstep] at hr
          have hc2 : cmdShutdownObserved
              { s with closeCount := s.closeCount + 1 } rest = false := by
            simpa [cmdShutdownObserved, hstep] using hc
          exact ih { s with closeCount := s.closeCount + 1 } hd hc2 hr
      | cmd c sendErr =>
          by_cases hdc : s.doneClosed = true
          · exact absurd hc (by simp [cmdShutdownObserved, hdc])
          · have hdc2 : s.doneClosed = false := by
              simpa using hdc
            have hstep : loopStep s (LoopEvent.cmd c sendErr) =
                StepResult.next { s with
                  dispatched := s.dispatched ++ [c]
                  spawnedTasks :=
                    s.spawnedTasks ++ (processCommand sendErr c).spawned
                  syncSends :=
                    s.syncSends ++ (processCommand sendErr c).syncSent } := by
              simp [loopStep, hdc2]
            rw [runLoop_cons_next hstep] at hr
            have hc2 : cmdShutdownObserved
                { s with
                  dispatched := s.dispatched ++ [c]
                  spawnedTasks :=
                    s.spawnedTasks ++ (processCommand sendErr c).spawned
                  syncSends :=
                    s.syncSends ++ (processCommand sendErr c).syncSent }
                rest = false := by
              simpa [cmdShutdownObserved, hdc2, hstep] using hc
            exact ih { s with
                dispatched := s.dispatched ++ [c]
                spawnedTasks :=
                  s.spawnedTasks ++ (processCommand sendErr c).spawned
                syncSends :=
                  s.syncSends ++ (processCommand sendErr c).syncSent }
              hd hc2 hr
      | closeDone =>
          have hstep : loopStep s LoopEvent.closeDone =
              StepResult.next { s with doneClosed := true } := rfl
          rw [runLoop_cons_next hstep] at hr
          have hc2 : cmdShutdownObserved { s with doneClosed := true } rest
              = false := by
            simpa [cmdShutdownObserved, hstep] using hc
          exact ih { s with doneClosed := true } hd hc2 hr

theorem runMain_cons_next {s s1 : MainState} {e : MainEvent}
    (h : mainStep s e = MainStepResult.next s1) (rest : List MainEvent) :
    runMain s (e :: rest) = runMain s1 rest := by
  simp [runMain, h]

theorem runMain_cons_exit {s s1 : MainState} {e : MainEvent}
    (h : mainStep s e = MainStepResult.exit s1) (rest : List MainEvent) :
    runMain s (e :: rest) = (s1, MainOutcome.exited) := by
  simp [runMain, h]

theorem runMain_wdog_prefix (pre : List MainEvent) :
    ∀ (s : MainState) (e : MainEvent) (post : List MainEvent),
      (∀ x ∈ pre, x = MainEvent.wdog) →
      (e = MainEvent.status ∨ e = MainEvent.timeout) →
      runMain s (pre ++ e :: post) = runMain s (pre ++ [e]) ∧
      (runMain s (pre ++ e :: post)).2 = MainOutcome.exited := by
  induction pre with
  | nil =>
      intro s e post _ he
      rcases he with he | he <;> subst he
      · exact ⟨rfl, rfl⟩
      · exact ⟨rfl, rfl⟩
  | cons x pre2 ih =>
      intro s e post hw he
      have hx : x = MainEvent.wdog := hw x (List.mem_cons_self x pre2)
      subst hx
      have hstep : mainStep s MainEvent.wdog =
          MainStepResult.next { s with wdogArms := s.wdogArms + 1 } := rfl
      have hw2 : ∀ x ∈ pre2, x = MainEvent.wdog := fun x hxm =>
        hw x (List.mem_cons_of_mem _ hxm)
      have h1 := ih { s with wdogArms := s.wdogArms + 1 } e post hw2 he
      rw [List.cons_append, List.cons_append, runMain_cons_next hstep,
        runMain_cons_next hstep]
      exact h1

/-- Claim C3 (counterexample to the claim as stated): from the initial loop
state, after the environment closes the done channel, a single command arrival
makes the loop observe the shutdown on the command path, close the session and
break DONE immediately — while `dialing` is still true and no dial result was
ever received, so the dial goroutine's result send is left without a receiver. -/
theorem dial_wait_counterexample :
    validTrace false
        [LoopEvent.closeDone, LoopEvent.cmd Cmd.statusConnected false] = true ∧
    hasDialResult
        [LoopEvent.closeDone, LoopEvent.cmd Cmd.statusConnected false] = false ∧
    (runLoop initialLoopState
        [LoopEvent.closeDone, LoopEvent.cmd Cmd.statusConnected false]).2 = true ∧
    (runLoop initialLoopState
        [LoopEvent.closeDone, LoopEvent.cmd Cmd.statusConnected false]).1.dialing
      = true ∧
    (runLoop initialLoopState
        [LoopEvent.closeDone,
          LoopEvent.cmd Cmd.statusConnected false]).1.closeCount = 1 := by
  decide

/-- Claim C3 (amended): when the shutdown signal is received on the loop's
dedicated done branch while the dial has not resolved, the loop closes the
session and keeps looping instead of exiting, and as long as shutdown is never
observed on the command path (no command is dequeued while the done channel is
closed — benign commands dequeued earlier are fine) the loop cannot exit from
a dialing state without first receiving the dial outcome; shutdown observed on
the command path, however, exits immediately even while still dialing. -/
theorem dial_wait_amended :
    ∀ (s : LoopState) (events : List LoopEvent),
      (s.dialing = true →
        loopStep s LoopEvent.done =
          StepResult.next { s with closeCount := s.closeCount + 1 }) ∧
      (s.dialing = true → cmdShutdownObserved s events = false →
        (runLoop s events).2 = true → hasDialResult events = true) := by
  intro s events
  constructor
  · intro hd
    simp [loopStep, hd]
  · intro hd hc hr
    exact runLoop_exit_needs_dialResult events s hd hc hr

/-- Witness for the amended C3: from the initial (dialing) state, a benign
command dequeued before shutdown is processed, then the done branch keeps
looping, and the exit happens only after the dial result is received. -/
theorem dial_wait_amended_witness :
    initialLoopState.dialing = true ∧
    cmdShutdownObserved initialLoopState
        [LoopEvent.cmd Cmd.statusConnected false, LoopEvent.closeDone,
          LoopEvent.done, LoopEvent.dialResult true] = false ∧
    (runLoop initialLoopState
        [LoopEvent.cmd Cmd.statusConnected false, LoopEvent.closeDone,
          LoopEvent.done, LoopEvent.dialResult true]).2 = true ∧
    loopStep initialLoopState LoopEvent.done =
      StepResult.next
        { initialLoopState with closeCount := initialLoopState.closeCount + 1 } ∧
    hasDialResult
        [LoopEvent.cmd Cmd.statusConnected false, LoopEvent.closeDone,
          LoopEvent.done, LoopEvent.dialResult true] = true := by
  refine ⟨by decide, by decide, by decide, ?_, ?_⟩
  · exact (dial_wait_amended initialLoopState []).1 (by decide)
  · exact (dial_wait_amended initialLoopState
      [LoopEvent.cmd Cmd.statusConnected false, LoopEvent.closeDone,
        LoopEvent.done, LoopEvent.dialResult true]).2
      (by decide) (by decide) (by decide)

/-- Claim C4: a `connectToServer` run sends exactly one value on the status
channel when the loop has exited and none while it is still running, and each
terminal branch of the select loop — dial failure, done received while not
dialing, and shutdown observed on the command path — does break DONE. -/
theorem status_sent_exactly_once :
    ∀ (events : List LoopEvent) (s : LoopState) (c : Cmd) (e : Bool),
      (connectToServer events).statusSent =
        (if (connectToServer events).exited then 1 else 0) ∧
      loopStep s (LoopEvent.dialResult true) =
        StepResult.exit { s with dialing := false } ∧
      loopStep { s with dialing := false } LoopEvent.done =
        StepResult.exit { s with dialing := false, closeCount := s.closeCount + 1 } ∧
      loopStep { s with doneClosed := true } (LoopEvent.cmd c e) =
        StepResult.exit { s with doneClosed := true, closeCount := s.closeCount + 1 } := by
  intro events s c e
  refine ⟨rfl, ?_, ?_, ?_⟩
  · simp [loopStep]
  · simp [loopStep]
  · simp [loopStep]

/-- Claim C5: when a command is dequeued after the done channel is already
closed, the loop's non-blocking re-check observes the shutdown, the command is
aborted (nothing is dispatched, no side-effect task is spawned, no synchronous
send happens), the session is closed, and the loop exits — ignoring every
later event, so no further command is ever dispatched. -/
theorem command_after_shutdown_aborted :
    ∀ (s : LoopState) (c : Cmd) (e : Bool) (rest : List LoopEvent),
      s.doneClosed = true →
      loopStep s (LoopEvent.cmd c e) =
        StepResult.exit { s with closeCount := s.closeCount + 1 } ∧
      runLoop s (LoopEvent.cmd c e :: rest) =
        ({ s with closeCount := s.closeCount + 1 }, true) ∧
      (runLoop s (LoopEvent.cmd c e :: rest)).1.dispatched = s.dispatched ∧
      (runLoop s (LoopEvent.cmd c e :: rest)).1.spawnedTasks = s.spawnedTasks ∧
      (runLoop s (LoopEvent.cmd c e :: rest)).1.syncSends = s.syncSends := by
  intro s c e rest h
  have hstep : loopStep s (LoopEvent.cmd c e) =
      StepResult.exit { s with closeCount := s.closeCount + 1 } := by
    simp [loopStep, h]
  have hrun := runLoop_cons_exit hstep rest
  exact ⟨hstep, hrun, by rw [hrun], by rw [hrun], by rw [hrun]⟩

/-- Witness for C5: with the done channel closed, a dequeued command followed
by another pending command leads to an immediate exit with nothing dispatched. -/
theorem command_after_shutdown_aborted_witness :
    ({ initialLoopState with doneClosed := true } : LoopState).doneClosed = true ∧
    runLoop { initialLoopState with doneClosed := true }
        (LoopEvent.cmd Cmd.statusConnected false ::
          [LoopEvent.cmd Cmd.statusConnected true]) =
      ({ initialLoopState with doneClosed := true, closeCount := 1 }, true) := by
  refine ⟨by decide, ?_⟩
  exact (command_after_shutdown_aborted { initialLoopState with doneClosed := true }
    Cmd.statusConnected false [LoopEvent.cmd Cmd.statusConnected true]
    (by decide)).2.1

/-- Claim C6: `processCommand` on the `statusConnected` (RegistrationReady)
sentinel spawns no concurrent task and sends the registration event to the
scheduler synchronously in the loop goroutine, regardless of whether the send
fails (the error is only logged); each of the four network-configuration
commands instead spawns exactly one concurrent task and sends nothing
synchronously; and after processing the sentinel the loop keeps looping,
accepting further commands. -/
theorem registration_sent_synchronously :
    ∀ (sendErr : Bool) (s : LoopState),
      processCommand sendErr Cmd.statusConnected =
        { spawned := [], syncSent := [NetworkEventKind.concentratorInstanceAdded] } ∧
      (∀ p, processCommand sendErr (Cmd.eventTenantAdded p) =
        { spawned := [SideEffectTask.addRemoteSubnet p], syncSent := [] }) ∧
      (∀ p, processCommand sendErr (Cmd.eventTenantRemoved p) =
        { spawned := [SideEffectTask.delRemoteSubnet p], syncSent := [] }) ∧
      (∀ p, processCommand sendErr (Cmd.commandAssignPublicIP p) =
        { spawned := [SideEffectTask.assignPubIP p], syncSent := [] }) ∧
      (∀ p, processCommand sendErr (Cmd.commandReleasePublicIP p) =
        { spawned := [SideEffectTask.releasePubIP p], syncSent := [] }) ∧
      (s.doneClosed = false →
        loopStep s (LoopEvent.cmd Cmd.statusConnected sendErr) =
          StepResult.next { s with
            dispatched := s.dispatched ++ [Cmd.statusConnected]
            spawnedTasks := s.spawnedTasks ++ []
            syncSends :=
              s.syncSends ++ [NetworkEventKind.concentratorInstanceAdded] }) := by
  intro sendErr s
  refine ⟨rfl, fun p => rfl, fun p => rfl, fun p => rfl, fun p => rfl, ?_⟩
  intro h
  simp [loopStep, h, processCommand]

/-- Witness for C6: from the initial loop state with a failing registration
send, the loop still continues, records the dispatch and the one synchronous
registration send, and spawns nothing. -/
theorem registration_sent_synchronously_witness :
    initialLoopState.doneClosed = false ∧
    loopStep initialLoopState (LoopEvent.cmd Cmd.statusConnected true) =
      StepResult.next { initialLoopState with
        dispatched := [Cmd.statusConnected]
        syncSends := [NetworkEventKind.concentratorInstanceAdded] } := by
  refine ⟨by decide, ?_⟩
  exact (registration_sent_synchronously true initialLoopState).2.2.2.2.2 (by decide)

/-- Claim C8 (evaluated at the failing input): the first OS termination signal
closes the done channel, but a second signal received before the process exits
reaches `close(doneCh)` again, which in Go is a panic on an already-closed
channel: the coordinator faults rather than tolerating the repeated signal. -/
theorem second_signal_faults :
    mainStep { doneClosed := true, timerArmed := true, wdogArms := 0 }
        MainEvent.signal =
      MainStepResult.fault { doneClosed := true, timerArmed := true, wdogArms := 0 } ∧
    (runMain initialMainState [MainEvent.signal, MainEvent.signal]).2 =
      MainOutcome.faulted ∧
    validMainTrace false false [MainEvent.signal, MainEvent.signal] = true := by
  decide

/-- Claim C9: the first termination signal closes the done channel and arms the
one-shot timeout; from then on, whichever of the status rendezvous or the
timeout arrives first makes the coordinator leave its loop (everything after
that first event is ignored), with only watchdog tokens in between keeping it
looping — so it exits at the first status/timeout even if the connection loop
never reports a clean exit. -/
theorem terminate_within_grace :
    ∀ (pre post : List MainEvent) (e : MainEvent),
      (∀ x ∈ pre, x = MainEvent.wdog) →
      (e = MainEvent.status ∨ e = MainEvent.timeout) →
      mainStep initialMainState MainEvent.signal =
        MainStepResult.next
          { initialMainState with doneClosed := true, timerArmed := true } ∧
      (runMain initialMainState
          (MainEvent.signal :: (pre ++ e :: post))).2 = MainOutcome.exited ∧
      runMain initialMainState (MainEvent.signal :: (pre ++ e :: post)) =
        runMain initialMainState (MainEvent.signal :: (pre ++ [e])) := by
  intro pre post e hw he
  have hstep : mainStep initialMainState MainEvent.signal =
      MainStepResult.next
        { initialMainState with doneClosed := true, timerArmed := true } := rfl
  have h1 := runMain_wdog_prefix pre
    { initialMainState with doneClosed := true, timerArmed := true } e post hw he
  refine ⟨hstep, ?_, ?_⟩
  · rw [runMain_cons_next hstep]
    exact h1.2
  · rw [runMain_cons_next hstep, runMain_cons_next hstep]
    exact h1.1

/-- Witness for C9: signal, one watchdog token, then the timeout fires (the
connection loop never reported): the coordinator exits at the timeout. -/
theorem terminate_within_grace_witness :
    (∀ x ∈ [MainEvent.wdog], x = MainEvent.wdog) ∧
    (MainEvent.timeout = MainEvent.status ∨ MainEvent.timeout = MainEvent.timeout) ∧
    (runMain initialMainState
        (MainEvent.signal ::
          ([MainEvent.wdog] ++ MainEvent.timeout :: [MainEvent.status]))).2 =
      MainOutcome.exited := by
  refine ⟨by decide, Or.inr rfl, ?_⟩
  exact (terminate_within_grace [MainEvent.wdog] [MainEvent.status]
    MainEvent.timeout (by decide) (Or.inr rfl)).2.1

/-- Claim C10 (counterexample to the claim as stated): the connect callback
performs its enqueue of the RegistrationReady sentinel inline in the callback
body, as a send on the rendezvous command channel — a blocking hand-off on the
delivery path, not work handed to a spawned task. -/
theorem callback_inline_send_counterexample :
    (callbackShape Notification.connect).inlineEnqueues = [Cmd.statusConnected] ∧
    (callbackShape Notification.connect).inlineEnqueues ≠ [] ∧
    (callbackShape Notification.connect).spawnedDecoders = [] := by
  decide

/-- Claim C10 (amended): every notification callback except the connect
handler performs no inline enqueue — command and event callbacks hand decoding
and enqueueing to spawned tasks, and the disconnect/status/error callbacks
only log — while the connect handler alone enqueues the RegistrationReady
sentinel inline in the callback as a blocking rendezvous send. -/
theorem callback_inline_send_amended :
    ∀ n : Notification,
      (callbackShape n).inlineEnqueues =
        match n with
        | Notification.connect => [Cmd.statusConnected]
        | _ => [] := by
  intro n
  cases n with
  | connect => rfl
  | disconnect => rfl
  | status code => rfl
  | error code => rfl
  | command kind payload => cases kind <;> rfl
  | event kind payload => cases kind <;> rfl

end CnciAgent
